import Mathlib

/-!
Verification of the assessment lifecycle core of the training backend
(attempt creation, answer capture, auto-grading, manual grading,
teacher-approval gate, and student-facing result queries).

The definitions below are a shallow embedding of the route handlers
POST /student/assessments/:id/start, POST /student/save-answer,
POST /student/assessments/:id/submit, GET /student/my-results,
GET /student/submissions/:id/review, POST /admin/submissions/:id/grade and
POST /admin/submissions/:id/approve-review, over an explicit database state.
Machine integers of the store are modelled as Int (all relevant columns are
INTEGER), the floating-point percentage column as Rat, timestamps as Int
milliseconds, and nullable columns as Option.
-/

/-- Question types of the schema enum. -/
inductive QuestionType where
  | MULTIPLE_CHOICE
  | TRUE_FALSE
  | SHORT_ANSWER
  | LONG_ANSWER
deriving DecidableEq, Repr

/-- Submission status enum. -/
inductive SubmissionStatus where
  | IN_PROGRESS
  | COMPLETED
  | ABANDONED
  | TIME_UP
deriving DecidableEq, Repr

/-- An answer option owned by a question. -/
structure QOption where
  id : Nat
  questionId : Nat
  optionText : String
  isCorrect : Bool
  order : Int
deriving DecidableEq, Repr

/-- A question owned by an assessment. -/
structure Question where
  id : Nat
  assessmentId : Nat
  questionText : String
  questionType : QuestionType
  marks : Int
  order : Int
  isActive : Bool
  options : List QOption
deriving DecidableEq, Repr

/-- An assessment attached to a course. -/
structure Assessment where
  id : Nat
  courseId : Nat
  title : String
  totalMarks : Int
  passingMarks : Int
  attempts : Int
  randomizeQuestions : Bool
  isActive : Bool
  startDate : Option Int
  endDate : Option Int
deriving DecidableEq, Repr

/-- One attempt by one user at one assessment. -/
structure Submission where
  id : Nat
  assessmentId : Nat
  userId : Nat
  attemptNumber : Int
  status : SubmissionStatus
  totalMarks : Int
  obtainedMarks : Int
  percentage : Rat
  isPassed : Bool
  isCheckedByTeacher : Bool
  checkedBy : Option Nat
  checkedAt : Option Int
  startTime : Int
  endTime : Option Int
  timeSpent : Option Int
deriving DecidableEq, Repr

/-- One stored answer, unique per (submissionId, questionId). -/
structure SubmissionAnswer where
  id : Nat
  submissionId : Nat
  questionId : Nat
  selectedOptionId : Option Nat
  textAnswer : Option String
  isCorrect : Bool
  marksObtained : Int
  timeSpent : Option Int
deriving DecidableEq, Repr

/-- The relational state the handlers read and write.  Enrollments are the
(userId, courseId) pairs of the Enrollment table. -/
structure DB where
  assessments : List Assessment
  questions : List Question
  enrollments : List (Nat × Nat)
  submissions : List Submission
  answers : List SubmissionAnswer
deriving DecidableEq, Repr

/-- Domain errors surfaced by the handlers (each corresponds to one early
4xx return in the route code). -/
inductive ApiError where
  | assessmentNotFound
  | notEnrolled
  | assessmentNotStarted
  | assessmentEnded
  | attemptsExceeded
  | invalidConfiguration
  | invalidSubmission
  | questionNotFound
  | missingSubmissionId
  | submissionNotFound
  | answerNotFound
  | marksOutOfRange
  | notCompleted
  | gradingIncomplete
  | pendingReview
deriving DecidableEq, Repr

/-- Stable insertion of an element into a list sorted by an Int key. -/
def insertByKey (key : α → Int) (a : α) : List α → List α
  | [] => [a]
  | x :: xs => if key a ≤ key x then a :: x :: xs else x :: insertByKey key a xs

/-- Stable sort by an Int key, modelling the store orderBy asc clauses. -/
def sortByKey (key : α → Int) (l : List α) : List α :=
  l.foldr (insertByKey key) []

/-- Lookup of an active assessment by id (findFirst with isActive true). -/
def findActiveAssessment (db : DB) (aid : Nat) : Option Assessment :=
  db.assessments.find? (fun a => decide (a.id = aid ∧ a.isActive = true))

/-- Lookup of an assessment by id alone (relation access via include). -/
def findAssessment (db : DB) (aid : Nat) : Option Assessment :=
  db.assessments.find? (fun a => decide (a.id = aid))

/-- Lookup of a question by id alone, as the save-answer handler does. -/
def findQuestion (db : DB) (qid : Nat) : Option Question :=
  db.questions.find? (fun q => decide (q.id = qid))

/-- Lookup of a submission by primary key. -/
def findSubmission (db : DB) (sid : Nat) : Option Submission :=
  db.submissions.find? (fun s => decide (s.id = sid))

/-- Lookup of a stored answer by primary key. -/
def findAnswer (db : DB) (ansId : Nat) : Option SubmissionAnswer :=
  db.answers.find? (fun a => decide (a.id = ansId))

/-- Whether the user is enrolled in the course. -/
def enrolled (db : DB) (uid cid : Nat) : Bool :=
  db.enrollments.any (fun e => decide (e.1 = uid ∧ e.2 = cid))

/-- Count of all prior submissions for the (assessmentId, userId) pair,
regardless of status. -/
def pairCount (db : DB) (aid uid : Nat) : Nat :=
  db.submissions.countP (fun s => decide (s.assessmentId = aid ∧ s.userId = uid))

/-- The first IN_PROGRESS submission for the pair, if any. -/
def findInProgress (db : DB) (aid uid : Nat) : Option Submission :=
  db.submissions.find? (fun s =>
    decide (s.assessmentId = aid ∧ s.userId = uid ∧ s.status = SubmissionStatus.IN_PROGRESS))

/-- Fresh submission id (serial primary key). -/
def nextSubmissionId (db : DB) : Nat :=
  (db.submissions.map (fun s => s.id)).foldr max 0 + 1

/-- Fresh answer id (serial primary key). -/
def nextAnswerId (db : DB) : Nat :=
  (db.answers.map (fun a => a.id)).foldr max 0 + 1

/-- The active questions of an assessment, ordered by their order column. -/
def activeQuestions (db : DB) (aid : Nat) : List Question :=
  sortByKey (fun q => q.order)
    (db.questions.filter (fun q => decide (q.assessmentId = aid ∧ q.isActive = true)))

/-- An option as exposed to the student: correctness flags stripped. -/
structure OptionView where
  id : Nat
  optionText : String
deriving DecidableEq, Repr

/-- A question as exposed to the student when an attempt starts. -/
structure QuestionView where
  id : Nat
  questionText : String
  questionType : QuestionType
  marks : Int
  options : List OptionView
deriving DecidableEq, Repr

/-- Formats a question for the start payload: options sorted by order,
correctness hidden. -/
def formatQuestion (q : Question) : QuestionView :=
  { id := q.id
    questionText := q.questionText
    questionType := q.questionType
    marks := q.marks
    options := (sortByKey (fun o => o.order) q.options).map
      (fun o => { id := o.id, optionText := o.optionText }) }

/-- Payload returned by the start handler. -/
structure StartResult where
  submissionId : Nat
  startTime : Int
  questions : List QuestionView
deriving DecidableEq, Repr

/-- The fresh submission row created by the start handler. -/
def newSubmission (db : DB) (aid uid : Nat) (now : Int) (a : Assessment) : Submission :=
  { id := nextSubmissionId db
    assessmentId := aid
    userId := uid
    attemptNumber := (pairCount db aid uid : Int) + 1
    status := SubmissionStatus.IN_PROGRESS
    totalMarks := a.totalMarks
    obtainedMarks := 0
    percentage := 0
    isPassed := false
    isCheckedByTeacher := false
    checkedBy := none
    checkedAt := none
    startTime := now
    endTime := none
    timeSpent := none }

/-- POST /student/assessments/:id/start.  The shuffle parameter models the
call Math.random based sort applied when randomizeQuestions is set on a
fresh attempt; the environment chooses it. -/
def startAttempt (db : DB) (aid uid : Nat) (now : Int)
    (shuffle : List Question → List Question) :
    Except ApiError (StartResult × DB) :=
  match findActiveAssessment db aid with
  | none => .error .assessmentNotFound
  | some a =>
    if enrolled db uid a.courseId = false then .error .notEnrolled
    else if a.startDate.any (fun sd => decide (now < sd)) then .error .assessmentNotStarted
    else if a.endDate.any (fun ed => decide (ed < now)) then .error .assessmentEnded
    else if a.attempts ≤ (pairCount db aid uid : Int) then .error .attemptsExceeded
    else
      match findInProgress db aid uid with
      | some sub =>
        .ok ({ submissionId := sub.id
               startTime := sub.startTime
               questions := (activeQuestions db aid).map formatQuestion }, db)
      | none =>
        if a.totalMarks ≤ 0 then .error .invalidConfiguration
        else
          let sub := newSubmission db aid uid now a
          let qs := if a.randomizeQuestions then shuffle (activeQuestions db aid)
                    else activeQuestions db aid
          .ok ({ submissionId := sub.id
                 startTime := sub.startTime
                 questions := qs.map formatQuestion },
               { db with submissions := db.submissions ++ [sub] })

/-- The submission the save-answer handler looks up: owned by the user and
still IN_PROGRESS. -/
def findSaveSubmission (db : DB) (uid sid : Nat) : Option Submission :=
  db.submissions.find? (fun s =>
    decide (s.id = sid ∧ s.userId = uid ∧ s.status = SubmissionStatus.IN_PROGRESS))

/-- Auto-grading at save time: for choice questions the selected option is
looked up among the question's own options and full marks are awarded iff
it is flagged correct; free-text questions always get (false, 0). -/
def autoGrade (q : Question) (selectedOptionId : Option Nat) : Bool × Int :=
  if q.questionType = QuestionType.MULTIPLE_CHOICE ∨ q.questionType = QuestionType.TRUE_FALSE then
    match q.options.find? (fun o => decide (some o.id = selectedOptionId)) with
    | some opt => if opt.isCorrect then (true, q.marks) else (false, 0)
    | none => (false, 0)
  else (false, 0)

/-- Upsert write applied to an existing answer row.  A none input field is
an absent request field, which the store update skips (the old value is
kept); the computed isCorrect and marksObtained are always written. -/
def updateAnswer (ans : SubmissionAnswer) (selectedOptionId : Option Nat)
    (textAnswer : Option String) (timeSpentInput : Option Int)
    (isCorrect : Bool) (marksObtained : Int) : SubmissionAnswer :=
  { ans with
    selectedOptionId := match selectedOptionId with
      | some v => some v | none => ans.selectedOptionId
    textAnswer := match textAnswer with | some t => some t | none => ans.textAnswer
    timeSpent := match timeSpentInput with | some t => some t | none => ans.timeSpent
    isCorrect := isCorrect
    marksObtained := marksObtained }

/-- The row targeted by the upsert: the unique stored answer of the
(submissionId, questionId) pair, if present. -/
def storedAnswer (db : DB) (sid qid : Nat) : Option SubmissionAnswer :=
  db.answers.find? (fun a => decide (a.submissionId = sid ∧ a.questionId = qid))

/-- POST /student/save-answer. -/
def saveAnswer (db : DB) (uid sid qid : Nat) (selectedOptionId : Option Nat)
    (textAnswer : Option String) (timeSpentInput : Option Int) :
    Except ApiError DB :=
  match findSaveSubmission db uid sid with
  | none => .error .invalidSubmission
  | some _ =>
    match findQuestion db qid with
    | none => .error .questionNotFound
    | some q =>
      let g := autoGrade q selectedOptionId
      match storedAnswer db sid qid with
      | some _ =>
        .ok { db with answers := db.answers.map (fun a =>
          if a.submissionId = sid ∧ a.questionId = qid then
            updateAnswer a selectedOptionId textAnswer timeSpentInput g.1 g.2
          else a) }
      | none =>
        .ok { db with answers := db.answers ++
          [{ id := nextAnswerId db
             submissionId := sid
             questionId := qid
             selectedOptionId := selectedOptionId
             textAnswer := textAnswer
             isCorrect := g.1
             marksObtained := g.2
             timeSpent := timeSpentInput }] }

/-- Rounding to two decimal places, as toFixed(2) does on the computed
percentage. -/
def round2 (q : Rat) : Rat :=
  (round (q * 100) : Int) / 100

/-- The submission the submit handler looks up: owned by the user, matching
the assessment of the route, and still IN_PROGRESS. -/
def findSubmitSubmission (db : DB) (uid sid aid : Nat) : Option Submission :=
  db.submissions.find? (fun s =>
    decide (s.id = sid ∧ s.userId = uid ∧ s.assessmentId = aid ∧
      s.status = SubmissionStatus.IN_PROGRESS))

/-- The stored answers of one submission. -/
def answersOf (db : DB) (sid : Nat) : List SubmissionAnswer :=
  db.answers.filter (fun a => decide (a.submissionId = sid))

/-- Sum of marksObtained over the stored answers of a submission; this is
the reduce the submit handler performs. -/
def sumMarks (db : DB) (sid : Nat) : Int :=
  ((answersOf db sid).map (fun a => a.marksObtained)).sum

/-- Payload returned by the submit handler: a PENDING_REVIEW notice plus
the computed but unapproved score. -/
structure SubmitResult where
  submissionId : Nat
  statusLabel : String
  obtainedMarks : Int
  totalMarks : Int
  percentage : Rat
  timeSpent : Int
deriving DecidableEq, Repr

/-- POST /student/assessments/:id/submit. -/
def submitAssessment (db : DB) (aid uid : Nat) (submissionId : Option Nat)
    (now : Int) : Except ApiError (SubmitResult × DB) :=
  match submissionId with
  | none => .error .missingSubmissionId
  | some sid =>
    match findSubmitSubmission db uid sid aid with
    | none => .error .submissionNotFound
    | some sub =>
      match findAssessment db sub.assessmentId with
      | none => .error .assessmentNotFound
      | some a =>
        if a.totalMarks ≤ 0 then .error .invalidConfiguration
        else
          let obtainedMarks := sumMarks db sid
          let percentage := round2 ((obtainedMarks : Rat) / (a.totalMarks : Rat) * 100)
          let isPassed := a.passingMarks ≤ obtainedMarks
          let timeSpent := Int.fdiv (now - sub.startTime) 1000
          .ok ({ submissionId := sid
                 statusLabel := "PENDING_REVIEW"
                 obtainedMarks := obtainedMarks
                 totalMarks := a.totalMarks
                 percentage := percentage
                 timeSpent := timeSpent },
               { db with submissions := db.submissions.map (fun s =>
                   if s.id = sid then
                     { s with
                       endTime := some now
                       status := SubmissionStatus.COMPLETED
                       obtainedMarks := obtainedMarks
                       percentage := percentage
                       isPassed := isPassed
                       timeSpent := some timeSpent
                       isCheckedByTeacher := false }
                   else s) })

/-- Payload returned by the grading handler. -/
structure GradeResult where
  marksAwarded : Int
  maxMarks : Int
  newTotalScore : Int
  newPercentage : Rat
  isPassed : Bool
deriving DecidableEq, Repr

/-- POST /admin/submissions/:id/grade.  The handler fetches the answer with
its question, submission and assessment, validates the marks range, writes
the answer, then recomputes the whole submission aggregate from all of its
answers; it never reads or writes isCheckedByTeacher. -/
def gradeAnswer (db : DB) (ansId : Nat) (marksObtained : Int) :
    Except ApiError (GradeResult × DB) :=
  match findAnswer db ansId with
  | none => .error .answerNotFound
  | some ans =>
    match findQuestion db ans.questionId with
    | none => .error .questionNotFound
    | some q =>
      match findSubmission db ans.submissionId with
      | none => .error .submissionNotFound
      | some sub =>
        match findAssessment db sub.assessmentId with
        | none => .error .assessmentNotFound
        | some a =>
          if marksObtained < 0 ∨ q.marks < marksObtained then .error .marksOutOfRange
          else
            let answers1 := db.answers.map (fun x =>
              if x.id = ansId then
                { x with marksObtained := marksObtained
                         isCorrect := decide (marksObtained = q.marks) }
              else x)
            let allAnswers := answers1.filter (fun x => decide (x.submissionId = ans.submissionId))
            let totalObtained := (allAnswers.map (fun x =>
              if x.id = ansId then marksObtained else x.marksObtained)).sum
            let percentage := round2 ((totalObtained : Rat) / (a.totalMarks : Rat) * 100)
            let isPassed := a.passingMarks ≤ totalObtained
            .ok ({ marksAwarded := marksObtained
                   maxMarks := q.marks
                   newTotalScore := totalObtained
                   newPercentage := percentage
                   isPassed := isPassed },
                 { db with
                   answers := answers1
                   submissions := db.submissions.map (fun s =>
                     if s.id = ans.submissionId then
                       { s with obtainedMarks := totalObtained
                                percentage := percentage
                                isPassed := isPassed }
                     else s) })

/-- Whether an answer counts as ungraded for the approval gate: a free-text
question, a non-null textAnswer, and marksObtained still zero. -/
def isUngradedFreeText (db : DB) (ans : SubmissionAnswer) : Bool :=
  (match findQuestion db ans.questionId with
   | some q => decide (q.questionType = QuestionType.SHORT_ANSWER ∨
                       q.questionType = QuestionType.LONG_ANSWER)
   | none => false) &&
  decide (ans.textAnswer ≠ none) && decide (ans.marksObtained = 0)

/-- POST /admin/submissions/:id/approve-review. -/
def approveReview (db : DB) (sid teacherId : Nat) (now : Int) :
    Except ApiError DB :=
  match findSubmission db sid with
  | none => .error .submissionNotFound
  | some sub =>
    if sub.status ≠ SubmissionStatus.COMPLETED then .error .notCompleted
    else if ((answersOf db sid).filter (isUngradedFreeText db)) ≠ [] then
      .error .gradingIncomplete
    else
      .ok { db with submissions := db.submissions.map (fun s =>
        if s.id = sid then
          { s with isCheckedByTeacher := true
                   checkedBy := some teacherId
                   checkedAt := some now }
        else s) }

/-- One row of the student results listing. -/
structure ResultEntry where
  submissionId : Nat
  assessmentId : Nat
  attemptNumber : Int
  submittedAt : Option Int
  status : String
  obtainedMarks : Option Int
  totalMarks : Option Int
  percentage : Option Rat
  isPassed : Option Bool
  timeSpent : Option Int
  checkedAt : Option Int
  canReview : Bool
deriving DecidableEq, Repr

/-- The per-submission body of the GET /student/my-results map: while the
submission is not checked by the teacher the row carries only the
PENDING_REVIEW status and null score fields; once checked it exposes the
stored score (totalMarks read from the parent assessment). -/
def resultEntry (db : DB) (sub : Submission) : ResultEntry :=
  if sub.isCheckedByTeacher = false then
    { submissionId := sub.id
      assessmentId := sub.assessmentId
      attemptNumber := sub.attemptNumber
      submittedAt := sub.endTime
      status := "PENDING_REVIEW"
      obtainedMarks := none
      totalMarks := none
      percentage := none
      isPassed := none
      timeSpent := none
      checkedAt := none
      canReview := false }
  else
    { submissionId := sub.id
      assessmentId := sub.assessmentId
      attemptNumber := sub.attemptNumber
      submittedAt := sub.endTime
      status := "GRADED"
      obtainedMarks := some sub.obtainedMarks
      totalMarks := (findAssessment db sub.assessmentId).map (fun a => a.totalMarks)
      percentage := some sub.percentage
      isPassed := some sub.isPassed
      timeSpent := sub.timeSpent
      checkedAt := sub.checkedAt
      canReview := true }

/-- GET /student/my-results: one entry per COMPLETED submission of the
user (the endTime ordering of the listing is not modelled). -/
def myResults (db : DB) (uid : Nat) : List ResultEntry :=
  (db.submissions.filter (fun s =>
    decide (s.userId = uid ∧ s.status = SubmissionStatus.COMPLETED))).map (resultEntry db)

/-- One detailed answer row of the review payload. -/
structure AnswerDetail where
  questionId : Nat
  marksObtained : Int
  isCorrect : Bool
  selectedOptionId : Option Nat
  textAnswer : Option String
deriving DecidableEq, Repr

/-- Full review payload released only after teacher approval. -/
structure ReviewData where
  submissionId : Nat
  attemptNumber : Int
  obtainedMarks : Int
  totalMarks : Int
  percentage : Rat
  isPassed : Bool
  timeSpent : Option Int
  submittedAt : Option Int
  answers : List AnswerDetail
deriving DecidableEq, Repr

/-- The submission the review handler looks up: the caller's COMPLETED
submission with the given id. -/
def findReviewSubmission (db : DB) (uid sid : Nat) : Option Submission :=
  db.submissions.find? (fun s =>
    decide (s.id = sid ∧ s.userId = uid ∧ s.status = SubmissionStatus.COMPLETED))

/-- GET /student/submissions/:id/review: finds the caller's COMPLETED
submission, refuses with the pending-review message until the teacher has
checked it, and only then returns marks and per-answer details. -/
def studentReview (db : DB) (uid sid : Nat) : Except ApiError ReviewData :=
  match findReviewSubmission db uid sid with
  | none => .error .submissionNotFound
  | some sub =>
    if sub.isCheckedByTeacher = false then .error .pendingReview
    else
      .ok { submissionId := sub.id
            attemptNumber := sub.attemptNumber
            obtainedMarks := sub.obtainedMarks
            totalMarks := sub.totalMarks
            percentage := sub.percentage
            isPassed := sub.isPassed
            timeSpent := sub.timeSpent
            submittedAt := sub.endTime
            answers := (answersOf db sid).map (fun a =>
              { questionId := a.questionId
                marksObtained := a.marksObtained
                isCorrect := a.isCorrect
                selectedOptionId := a.selectedOptionId
                textAnswer := a.textAnswer }) }

/-- One invocation of a core operation, with its request arguments. -/
inductive Op where
  | startOp (aid uid : Nat) (now : Int) (shuffle : List Question → List Question)
  | saveOp (uid sid qid : Nat) (sel : Option Nat) (txt : Option String) (ts : Option Int)
  | submitOp (aid uid : Nat) (sid : Option Nat) (now : Int)
  | gradeOp (ansId : Nat) (m : Int)
  | approveOp (sid tid : Nat) (now : Int)

/-- The state after running one operation: the updated database on
success, the untouched database on a domain error. -/
def applyOp (db : DB) : Op → DB
  | .startOp aid uid now shuffle =>
    match startAttempt db aid uid now shuffle with
    | .ok r => r.2
    | .error _ => db
  | .saveOp uid sid qid sel txt ts =>
    match saveAnswer db uid sid qid sel txt ts with
    | .ok db' => db'
    | .error _ => db
  | .submitOp aid uid sid now =>
    match submitAssessment db aid uid sid now with
    | .ok r => r.2
    | .error _ => db
  | .gradeOp ansId m =>
    match gradeAnswer db ansId m with
    | .ok r => r.2
    | .error _ => db
  | .approveOp sid tid now =>
    match approveReview db sid tid now with
    | .ok db' => db'
    | .error _ => db

/-- Marks every IN_PROGRESS submission of the pair COMPLETED, modelling
the student finishing the open attempt between two starts. -/
def completePair (db : DB) (aid uid : Nat) : DB :=
  { db with submissions := db.submissions.map (fun s =>
      if s.assessmentId = aid ∧ s.userId = uid ∧ s.status = SubmissionStatus.IN_PROGRESS
      then { s with status := SubmissionStatus.COMPLETED } else s) }

/-- One start-then-finish round of the attempt scenario. -/
def startCycle (db : DB) (aid uid : Nat) (now : Int)
    (shuffle : List Question → List Question) : Except ApiError DB :=
  match startAttempt db aid uid now shuffle with
  | .error e => .error e
  | .ok r => .ok (completePair r.2 aid uid)

/-- Runs n start-then-finish rounds, stopping at the first error. -/
def iterCycles (aid uid : Nat) (now : Int)
    (shuffle : List Question → List Question) : Nat → DB → Except ApiError DB
  | 0, db => .ok db
  | n + 1, db =>
    match iterCycles aid uid now shuffle n db with
    | .error e => .error e
    | .ok dbn => startCycle dbn aid uid now shuffle

/-- Fixture: a wrong option of the choice question. -/
def exOptA : QOption :=
  { id := 1, questionId := 1, optionText := "A", isCorrect := false, order := 1 }

/-- Fixture: the correct option of the choice question. -/
def exOptB : QOption :=
  { id := 2, questionId := 1, optionText := "B", isCorrect := true, order := 2 }

/-- Fixture: a 5-mark single-choice question of assessment 1. -/
def exQ1 : Question :=
  { id := 1, assessmentId := 1, questionText := "pick one",
    questionType := QuestionType.MULTIPLE_CHOICE, marks := 5, order := 1,
    isActive := true, options := [exOptA, exOptB] }

/-- Fixture: a 5-mark long-answer question of assessment 1. -/
def exQ2 : Question :=
  { id := 2, assessmentId := 1, questionText := "explain",
    questionType := QuestionType.LONG_ANSWER, marks := 5, order := 2,
    isActive := true, options := [] }

/-- Fixture: a 7-mark single-choice question of assessment 2, with its
correct option. -/
def exQ3 : Question :=
  { id := 3, assessmentId := 2, questionText := "other quiz",
    questionType := QuestionType.MULTIPLE_CHOICE, marks := 7, order := 1,
    isActive := true,
    options := [{ id := 6, questionId := 3, optionText := "yes",
                  isCorrect := true, order := 1 }] }

/-- Fixture: assessment 1 of course 1, two attempts allowed. -/
def exAssessment : Assessment :=
  { id := 1, courseId := 1, title := "quiz", totalMarks := 10, passingMarks := 5,
    attempts := 2, randomizeQuestions := false, isActive := true,
    startDate := none, endDate := none }

/-- Fixture: assessment 2 of course 1 (a second quiz). -/
def exAssessment2 : Assessment :=
  { exAssessment with id := 2 }

/-- Fixture: an in-progress submission of user 10 at assessment 1, with a
stale totalMarks snapshot of 999. -/
def exSub : Submission :=
  { id := 1, assessmentId := 1, userId := 10, attemptNumber := 1,
    status := SubmissionStatus.IN_PROGRESS, totalMarks := 999, obtainedMarks := 0,
    percentage := 0, isPassed := false, isCheckedByTeacher := false,
    checkedBy := none, checkedAt := none, startTime := 0, endTime := none,
    timeSpent := none }

/-- Fixture: a database with one open attempt and no saved answers. -/
def dbInProgress : DB :=
  { assessments := [exAssessment], questions := [exQ1, exQ2],
    enrollments := [(10, 1)], submissions := [exSub], answers := [] }

/-- Fixture: as dbInProgress but the assessment allows a single attempt. -/
def dbOneAttempt : DB :=
  { dbInProgress with assessments := [{ exAssessment with attempts := 1 }] }

/-- Fixture: assessment 1 randomizes questions and nobody has started. -/
def dbRand : DB :=
  { assessments := [{ exAssessment with randomizeQuestions := true }],
    questions := [exQ1, exQ2], enrollments := [(10, 1)], submissions := [],
    answers := [] }

/-- Fixture: no attempts yet (for the attempt-limit scenario). -/
def dbFresh : DB :=
  { assessments := [exAssessment], questions := [exQ1, exQ2],
    enrollments := [(10, 1)], submissions := [], answers := [] }

/-- Fixture: the free-text answer of submission 1, ungraded. -/
def exAnsFree : SubmissionAnswer :=
  { id := 1, submissionId := 1, questionId := 2, selectedOptionId := none,
    textAnswer := some "essay", isCorrect := false, marksObtained := 0,
    timeSpent := none }

/-- Fixture: the auto-graded correct choice answer of submission 1. -/
def exAnsChoice : SubmissionAnswer :=
  { id := 2, submissionId := 1, questionId := 1, selectedOptionId := some 2,
    textAnswer := none, isCorrect := true, marksObtained := 5,
    timeSpent := none }

/-- Fixture: submission 1 already submitted, scored 5/10, awaiting review. -/
def exSubCompleted : Submission :=
  { exSub with
    status := SubmissionStatus.COMPLETED
    totalMarks := 10
    obtainedMarks := 5
    percentage := 50
    isPassed := true
    endTime := some 4000
    timeSpent := some 4 }

/-- Fixture: a completed submission with both answers, pending review. -/
def dbCompleted : DB :=
  { assessments := [exAssessment], questions := [exQ1, exQ2],
    enrollments := [(10, 1)], submissions := [exSubCompleted],
    answers := [exAnsFree, exAnsChoice] }

/-- Fixture: the same submission already approved by teacher 99. -/
def dbApproved : DB :=
  { dbCompleted with submissions := [{ exSubCompleted with
      isCheckedByTeacher := true, checkedBy := some 99, checkedAt := some 5000 }] }

/-- Fixture: two assessments, an open attempt at assessment 1, and the
foreign question exQ3 belonging to assessment 2. -/
def dbCross : DB :=
  { assessments := [exAssessment, exAssessment2], questions := [exQ1, exQ2, exQ3],
    enrollments := [(10, 1)], submissions := [exSub], answers := [] }

/-- Fixture: the open attempt already has the correct choice answer. -/
def dbAnswered : DB :=
  { dbInProgress with answers := [exAnsChoice] }

/-- Fixture: the completed submission with the free-text answer already
graded at full marks, ready for approval. -/
def dbGraded : DB :=
  { dbCompleted with
    answers := [{ exAnsFree with marksObtained := 5, isCorrect := true },
                exAnsChoice] }

/-- Fixture: dbCross after saving assessment 2's question into the
assessment 1 submission (the row the create branch writes). -/
def dbCrossSaved : DB :=
  { dbCross with answers := [{
      id := 1
      submissionId := 1
      questionId := 3
      selectedOptionId := some 6
      textAnswer := none
      isCorrect := true
      marksObtained := 7
      timeSpent := none }] }

/-- Auxiliary list fact: find? commutes with a map that does not change
the predicate value of any element. -/
theorem find_map_stable {α : Type} (g : α → α) (p : α → Bool)
    (h : ∀ x, p (g x) = p x) (l : List α) :
    (l.map g).find? p = (l.find? p).map g := by
  induction l with
  | nil => rfl
  | cons x xs ih =>
    simp only [List.map_cons, List.find?_cons, h x]
    cases hp : p x
    · simpa using ih
    · simp

/-- Mapping an id-preserving transform over the submissions commutes with
the primary-key lookup. -/
theorem findSubmission_map (db : DB) (f : Submission → Submission)
    (hid : ∀ s, (f s).id = s.id) (sid : Nat) :
    findSubmission { db with submissions := db.submissions.map f } sid =
      (findSubmission db sid).map f := by
  unfold findSubmission
  exact find_map_stable f _ (fun s => by simp [hid s]) _

/-- Appending a row does not change a lookup that already succeeds. -/
theorem findSubmission_append (db : DB) (x : Submission) (sid : Nat) (sub : Submission)
    (h : findSubmission db sid = some sub) :
    findSubmission { db with submissions := db.submissions ++ [x] } sid = some sub := by
  unfold findSubmission at h ⊢
  simp only [List.find?_append, h]
  rfl

/-- A successful primary-key lookup returns a row with that key. -/
theorem findSubmission_id (db : DB) (sid : Nat) (sub : Submission)
    (h : findSubmission db sid = some sub) : sub.id = sid := by
  have := List.find?_some h
  simpa using this

/-- A successful primary-key lookup returns a stored row. -/
theorem findSubmission_mem (db : DB) (sid : Nat) (sub : Submission)
    (h : findSubmission db sid = some sub) : sub ∈ db.submissions :=
  List.mem_of_find?_eq_some h

/-- With no duplicate primary keys, two stored rows with the same id are
the same row. -/
theorem submission_eq_of_id (db : DB)
    (hnodup : (db.submissions.map (fun s => s.id)).Nodup)
    (a b : Submission) (ha : a ∈ db.submissions) (hb : b ∈ db.submissions)
    (h : a.id = b.id) : a = b :=
  List.inj_on_of_nodup_map hnodup ha hb h

/-- A submission that is stored under this id but is not IN_PROGRESS
cannot be found by the save-answer lookup (unique primary keys). -/
theorem findSaveSubmission_none (db : DB) (sid uid : Nat) (sub : Submission)
    (hnodup : (db.submissions.map (fun s => s.id)).Nodup)
    (hfind : findSubmission db sid = some sub)
    (hst : sub.status ≠ SubmissionStatus.IN_PROGRESS) :
    findSaveSubmission db uid sid = none := by
  unfold findSaveSubmission
  rw [List.find?_eq_none]
  intro x hx hpx
  simp only [decide_eq_true_eq] at hpx
  have hx_eq : x = sub := by
    apply submission_eq_of_id db hnodup x sub hx (findSubmission_mem db sid sub hfind)
    rw [hpx.1, findSubmission_id db sid sub hfind]
  exact hst (hx_eq ▸ hpx.2.2)

/-- A submission that is stored under this id but is not IN_PROGRESS
cannot be found by the submit lookup either. -/
theorem findSubmitSubmission_none (db : DB) (sid uid aid : Nat) (sub : Submission)
    (hnodup : (db.submissions.map (fun s => s.id)).Nodup)
    (hfind : findSubmission db sid = some sub)
    (hst : sub.status ≠ SubmissionStatus.IN_PROGRESS) :
    findSubmitSubmission db uid sid aid = none := by
  unfold findSubmitSubmission
  rw [List.find?_eq_none]
  intro x hx hpx
  simp only [decide_eq_true_eq] at hpx
  have hx_eq : x = sub := by
    apply submission_eq_of_id db hnodup x sub hx (findSubmission_mem db sid sub hfind)
    rw [hpx.1, findSubmission_id db sid sub hfind]
  exact hst (hx_eq ▸ hpx.2.2.2)

/-- SaveAnswer writes only the answers table: the submissions are
untouched whichever upsert branch runs. -/
theorem saveAnswer_submissions (db db' : DB) (uid sid qid : Nat)
    (sel : Option Nat) (txt : Option String) (ts : Option Int)
    (h : saveAnswer db uid sid qid sel txt ts = .ok db') :
    db'.submissions = db.submissions := by
  unfold saveAnswer at h
  cases h1 : findSaveSubmission db uid sid <;> rw [h1] at h
  · exact absurd h (by simp)
  · cases h2 : findQuestion db qid <;> rw [h2] at h
    · exact absurd h (by simp)
    · cases h3 : storedAnswer db sid qid <;> rw [h3] at h <;>
        simp only [Except.ok.injEq] at h <;> rw [← h]

/-- The pair count only looks at assessmentId and userId, so a transform
preserving both preserves the count. -/
theorem pairCount_map_stable (db : DB) (f : Submission → Submission)
    (h : ∀ s, (f s).assessmentId = s.assessmentId ∧ (f s).userId = s.userId)
    (aid uid : Nat) :
    pairCount { db with submissions := db.submissions.map f } aid uid =
      pairCount db aid uid := by
  unfold pairCount
  rw [List.countP_map]
  congr 1
  funext s
  simp [Function.comp, (h s).1, (h s).2]

/-- Appending a submission of the pair raises the pair count by one. -/
theorem pairCount_append_match (db : DB) (x : Submission) (aid uid : Nat)
    (hx : x.assessmentId = aid ∧ x.userId = uid) :
    pairCount { db with submissions := db.submissions ++ [x] } aid uid =
      pairCount db aid uid + 1 := by
  unfold pairCount
  rw [List.countP_append]
  simp [List.countP_cons, hx.1, hx.2]

/-- After completePair no IN_PROGRESS submission of the pair remains. -/
theorem findInProgress_completePair (db : DB) (aid uid : Nat) :
    findInProgress (completePair db aid uid) aid uid = none := by
  unfold findInProgress completePair
  rw [List.find?_eq_none]
  intro x hx
  simp only [List.mem_map] at hx
  obtain ⟨y, _, rfl⟩ := hx
  by_cases hc : y.assessmentId = aid ∧ y.userId = uid ∧ y.status = SubmissionStatus.IN_PROGRESS
  · simp [hc]
  · simp only [if_neg hc, decide_eq_true_eq]
    exact hc

/-- completePair does not change the pair count. -/
theorem pairCount_completePair (db : DB) (aid uid aid' uid' : Nat) :
    pairCount (completePair db aid uid) aid' uid' = pairCount db aid' uid' := by
  unfold completePair
  apply pairCount_map_stable
  intro s
  by_cases hc : s.assessmentId = aid ∧ s.userId = uid ∧ s.status = SubmissionStatus.IN_PROGRESS
  · simp [hc]
  · simp [hc]

/-- The active-assessment lookup depends only on the assessments table. -/
theorem findActiveAssessment_ext (db1 db2 : DB) (aid : Nat)
    (h : db1.assessments = db2.assessments) :
    findActiveAssessment db1 aid = findActiveAssessment db2 aid := by
  unfold findActiveAssessment
  rw [h]

/-- The enrollment check depends only on the enrollments table. -/
theorem enrolled_ext (db1 db2 : DB) (uid cid : Nat)
    (h : db1.enrollments = db2.enrollments) :
    enrolled db1 uid cid = enrolled db2 uid cid := by
  unfold enrolled
  rw [h]

/-- The answers of a submission after appending a row of that submission. -/
theorem answersOf_append_match (db : DB) (x : SubmissionAnswer) (sid : Nat)
    (hx : x.submissionId = sid) :
    answersOf { db with answers := db.answers ++ [x] } sid = answersOf db sid ++ [x] := by
  unfold answersOf
  rw [List.filter_append]
  simp [List.filter_cons, hx]

/-- Appending an answer of the submission adds its marks to the sum the
submit handler computes. -/
theorem sumMarks_append_match (db : DB) (x : SubmissionAnswer) (sid : Nat)
    (hx : x.submissionId = sid) :
    sumMarks { db with answers := db.answers ++ [x] } sid =
      sumMarks db sid + x.marksObtained := by
  unfold sumMarks
  rw [answersOf_append_match db x sid hx]
  simp

/-- The row the create branch of the upsert writes. -/
def newAnswer (db : DB) (sid qid : Nat) (sel : Option Nat) (txt : Option String)
    (ts : Option Int) (g : Bool × Int) : SubmissionAnswer :=
  { id := nextAnswerId db
    submissionId := sid
    questionId := qid
    selectedOptionId := sel
    textAnswer := txt
    isCorrect := g.1
    marksObtained := g.2
    timeSpent := ts }

/-- With no prior row for the pair, SaveAnswer appends a fresh row whose
correctness and marks come from the auto-grading rule. -/
theorem saveAnswer_create (db : DB) (uid sid qid : Nat) (sel : Option Nat)
    (txt : Option String) (ts : Option Int) (sub : Submission) (q : Question)
    (hsub : findSaveSubmission db uid sid = some sub)
    (hq : findQuestion db qid = some q)
    (hfresh : storedAnswer db sid qid = none) :
    saveAnswer db uid sid qid sel txt ts =
      .ok { db with answers := db.answers ++ [newAnswer db sid qid sel txt ts (autoGrade q sel)] } := by
  unfold saveAnswer
  rw [hsub, hq, hfresh]
  rfl

/-- With a prior row for the pair, SaveAnswer maps the update over the
answers and the updated row is still the one stored for the pair. -/
theorem saveAnswer_update (db : DB) (uid sid qid : Nat) (sel : Option Nat)
    (txt : Option String) (ts : Option Int) (sub : Submission) (q : Question)
    (a0 : SubmissionAnswer)
    (hsub : findSaveSubmission db uid sid = some sub)
    (hq : findQuestion db qid = some q)
    (hex : storedAnswer db sid qid = some a0) :
    ∃ db', saveAnswer db uid sid qid sel txt ts = .ok db' ∧
      storedAnswer db' sid qid =
        some (updateAnswer a0 sel txt ts (autoGrade q sel).1 (autoGrade q sel).2) := by
  unfold saveAnswer
  rw [hsub, hq, hex]
  refine ⟨_, rfl, ?_⟩
  unfold storedAnswer at hex ⊢
  rw [find_map_stable _ _ ?stable db.answers, hex]
  case stable =>
    intro x
    by_cases hc : x.submissionId = sid ∧ x.questionId = qid
    · simp [hc, updateAnswer]
    · simp [hc]
  have hpa0 : a0.submissionId = sid ∧ a0.questionId = qid := by
    have := List.find?_some hex
    simpa using this
  simp [hpa0]

/-- The row stored after any successful SaveAnswer carries exactly the
auto-graded correctness and marks. -/
theorem saveAnswer_stores (db : DB) (uid sid qid : Nat) (sel : Option Nat)
    (txt : Option String) (ts : Option Int) (sub : Submission) (q : Question)
    (hsub : findSaveSubmission db uid sid = some sub)
    (hq : findQuestion db qid = some q) :
    ∃ db', saveAnswer db uid sid qid sel txt ts = .ok db' ∧
      ∃ ans, storedAnswer db' sid qid = some ans ∧
        ans.submissionId = sid ∧ ans.questionId = qid ∧
        ans.isCorrect = (autoGrade q sel).1 ∧
        ans.marksObtained = (autoGrade q sel).2 := by
  cases hex : storedAnswer db sid qid with
  | none =>
    refine ⟨_, saveAnswer_create db uid sid qid sel txt ts sub q hsub hq hex, ?_⟩
    refine ⟨newAnswer db sid qid sel txt ts (autoGrade q sel), ?_, rfl, rfl, rfl, rfl⟩
    unfold storedAnswer at hex ⊢
    simp only [List.find?_append, hex]
    simp [newAnswer]
  | some a0 =>
    obtain ⟨db', hok, hstored⟩ :=
      saveAnswer_update db uid sid qid sel txt ts sub q a0 hsub hq hex
    have hpa0 : a0.submissionId = sid ∧ a0.questionId = qid := by
      have := List.find?_some hex
      simpa [storedAnswer] using this
    refine ⟨db', hok, _, hstored, ?_, ?_, rfl, rfl⟩
    · simp [updateAnswer, hpa0.1]
    · simp [updateAnswer, hpa0.2]

/-- Auto-grading a choice question whose selected option is found among
the question's own options: full marks iff the option is flagged correct. -/
theorem autoGrade_choice_found (q : Question) (sel : Option Nat) (opt : QOption)
    (hty : q.questionType = QuestionType.MULTIPLE_CHOICE ∨
           q.questionType = QuestionType.TRUE_FALSE)
    (hfound : q.options.find? (fun o => decide (some o.id = sel)) = some opt) :
    autoGrade q sel = (opt.isCorrect, if opt.isCorrect = true then q.marks else 0) := by
  unfold autoGrade
  rw [if_pos hty, hfound]
  cases h : opt.isCorrect <;> simp [h]

/-- Auto-grading a choice question with no matching option: zero marks,
not correct, and no error. -/
theorem autoGrade_choice_none (q : Question) (sel : Option Nat)
    (hty : q.questionType = QuestionType.MULTIPLE_CHOICE ∨
           q.questionType = QuestionType.TRUE_FALSE)
    (hnone : q.options.find? (fun o => decide (some o.id = sel)) = none) :
    autoGrade q sel = (false, 0) := by
  unfold autoGrade
  rw [if_pos hty, hnone]

/-- Auto-grading a free-text question always yields (false, 0). -/
theorem autoGrade_free (q : Question) (sel : Option Nat)
    (hty : q.questionType = QuestionType.SHORT_ANSWER ∨
           q.questionType = QuestionType.LONG_ANSWER) :
    autoGrade q sel = (false, 0) := by
  unfold autoGrade
  rw [if_neg]
  rcases hty with h | h <;> rw [h] <;> simp

/-- Auto-graded marks are never partial: zero or the full question marks. -/
theorem autoGrade_marks_split (q : Question) (sel : Option Nat) :
    (autoGrade q sel).2 = 0 ∨ (autoGrade q sel).2 = q.marks := by
  unfold autoGrade
  by_cases hty : q.questionType = QuestionType.MULTIPLE_CHOICE ∨
      q.questionType = QuestionType.TRUE_FALSE
  · rw [if_pos hty]
    cases hfound : q.options.find? (fun o => decide (some o.id = sel)) with
    | none => simp
    | some opt => cases h : opt.isCorrect <;> simp [h]
  · rw [if_neg hty]
    simp

/-- Variant of the map lemma stated through a submissions-field equation. -/
theorem findSubmission_map_eq (db db' : DB) (f : Submission → Submission)
    (heq : db'.submissions = db.submissions.map f)
    (hid : ∀ s, (f s).id = s.id) (sid : Nat) :
    findSubmission db' sid = (findSubmission db sid).map f := by
  unfold findSubmission
  rw [heq]
  exact find_map_stable f _ (fun s => by simp [hid s]) _

/-- With unique ids, a stored row is exactly what the primary-key lookup
returns. -/
theorem findSubmission_of_mem (db : DB) (sid : Nat) (sub : Submission)
    (hnodup : (db.submissions.map (fun s => s.id)).Nodup)
    (hmem : sub ∈ db.submissions) (hid : sub.id = sid) :
    findSubmission db sid = some sub := by
  cases h : findSubmission db sid with
  | none =>
    exfalso
    unfold findSubmission at h
    rw [List.find?_eq_none] at h
    exact h sub hmem (by simp [hid])
  | some s =>
    have hs : s = sub := by
      apply submission_eq_of_id db hnodup s sub (findSubmission_mem db sid s h) hmem
      rw [findSubmission_id db sid s h, hid]
    rw [hs]

/-- The grading handler rewrites the submissions by an id-preserving map
that never touches isCheckedByTeacher. -/
theorem gradeAnswer_ok_shape (db : DB) (ansId : Nat) (m : Int) (r : GradeResult)
    (db' : DB) (h : gradeAnswer db ansId m = .ok (r, db')) :
    ∃ f : Submission → Submission, db'.submissions = db.submissions.map f ∧
      (∀ s, (f s).id = s.id) ∧
      (∀ s, (f s).isCheckedByTeacher = s.isCheckedByTeacher) := by
  unfold gradeAnswer at h
  cases h1 : findAnswer db ansId with
  | none => simp only [h1] at h; simp at h
  | some ans =>
    simp only [h1] at h
    cases h2 : findQuestion db ans.questionId with
    | none => simp only [h2] at h; simp at h
    | some q =>
      simp only [h2] at h
      cases h3 : findSubmission db ans.submissionId with
      | none => simp only [h3] at h; simp at h
      | some sub =>
        simp only [h3] at h
        cases h4 : findAssessment db sub.assessmentId with
        | none => simp only [h4] at h; simp at h
        | some a =>
          simp only [h4] at h
          by_cases h5 : m < 0 ∨ q.marks < m
          · simp only [if_pos h5] at h; simp at h
          · simp only [if_neg h5, Except.ok.injEq, Prod.mk.injEq] at h
            obtain ⟨hr, hdb⟩ := h
            subst hdb
            refine ⟨_, rfl, ?_, ?_⟩
            · intro s
              by_cases hc : s.id = ans.submissionId <;> simp [hc]
            · intro s
              by_cases hc : s.id = ans.submissionId <;> simp [hc]

/-- A successful start either leaves the state unchanged (resume) or
appends one fresh submission row. -/
theorem startAttempt_ok_shape (db : DB) (aid uid : Nat) (now : Int)
    (shuffle : List Question → List Question) (r : StartResult) (db' : DB)
    (h : startAttempt db aid uid now shuffle = .ok (r, db')) :
    db' = db ∨ ∃ x, db'.submissions = db.submissions ++ [x] := by
  unfold startAttempt at h
  cases h1 : findActiveAssessment db aid with
  | none => simp only [h1] at h; simp at h
  | some a =>
    simp only [h1] at h
    by_cases h2 : enrolled db uid a.courseId = false
    · simp only [if_pos h2] at h; simp at h
    simp only [if_neg h2] at h
    by_cases h3 : a.startDate.any (fun sd => decide (now < sd)) = true
    · simp only [if_pos h3] at h; simp at h
    simp only [if_neg h3] at h
    by_cases h4 : a.endDate.any (fun ed => decide (ed < now)) = true
    · simp only [if_pos h4] at h; simp at h
    simp only [if_neg h4] at h
    by_cases h5 : a.attempts ≤ (pairCount db aid uid : Int)
    · simp only [if_pos h5] at h; simp at h
    simp only [if_neg h5] at h
    cases h6 : findInProgress db aid uid with
    | some sub =>
      simp only [h6, Except.ok.injEq, Prod.mk.injEq] at h
      exact Or.inl h.2.symm
    | none =>
      simp only [h6] at h
      by_cases h7 : a.totalMarks ≤ 0
      · simp only [if_pos h7] at h; simp at h
      · simp only [if_neg h7, Except.ok.injEq, Prod.mk.injEq] at h
        obtain ⟨hr, hdb⟩ := h
        subst hdb
        exact Or.inr ⟨_, rfl⟩

/-- A successful submit rewrites the submissions by an id-preserving map
that only touches the row of the submitted IN_PROGRESS submission. -/
theorem submitAssessment_ok_shape (db : DB) (aid uid : Nat) (sid : Option Nat)
    (now : Int) (r : SubmitResult) (db' : DB)
    (h : submitAssessment db aid uid sid now = .ok (r, db')) :
    ∃ sid2 sub2, findSubmitSubmission db uid sid2 aid = some sub2 ∧
      sub2.status = SubmissionStatus.IN_PROGRESS ∧ sub2 ∈ db.submissions ∧
      sub2.id = sid2 ∧
      ∃ f : Submission → Submission, db'.submissions = db.submissions.map f ∧
        (∀ s, (f s).id = s.id) ∧ (∀ s, ¬ s.id = sid2 → f s = s) := by
  unfold submitAssessment at h
  cases sid with
  | none => simp at h
  | some sid =>
    simp only at h
    cases h1 : findSubmitSubmission db uid sid aid with
    | none => simp only [h1] at h; simp at h
    | some sub =>
      simp only [h1] at h
      have hpred := List.find?_some h1
      simp only [decide_eq_true_eq] at hpred
      cases h2 : findAssessment db sub.assessmentId with
      | none => simp only [h2] at h; simp at h
      | some a =>
        simp only [h2] at h
        by_cases h3 : a.totalMarks ≤ 0
        · simp only [if_pos h3] at h; simp at h
        · simp only [if_neg h3, Except.ok.injEq, Prod.mk.injEq] at h
          obtain ⟨hr, hdb⟩ := h
          subst hdb
          refine ⟨sid, sub, h1, hpred.2.2.2, List.mem_of_find?_eq_some h1, hpred.1, ?_⟩
          refine ⟨_, rfl, ?_, ?_⟩
          · intro s
            by_cases hc : s.id = sid <;> simp [hc]
          · intro s hc
            simp [hc]

/-- A successful approval rewrites the submissions by an id-preserving map
that can only set isCheckedByTeacher to true, never to false. -/
theorem approveReview_ok_shape (db : DB) (sid tid : Nat) (now : Int) (db' : DB)
    (h : approveReview db sid tid now = .ok db') :
    ∃ f : Submission → Submission, db'.submissions = db.submissions.map f ∧
      (∀ s, (f s).id = s.id) ∧
      (∀ s, s.isCheckedByTeacher = true → (f s).isCheckedByTeacher = true) := by
  unfold approveReview at h
  cases h1 : findSubmission db sid with
  | none => simp only [h1] at h; simp at h
  | some sub =>
    simp only [h1] at h
    by_cases h2 : sub.status ≠ SubmissionStatus.COMPLETED
    · simp only [if_pos h2] at h; simp at h
    · simp only [if_neg h2] at h
      by_cases h3 : ((answersOf db sid).filter (isUngradedFreeText db)) ≠ []
      · simp only [if_pos h3] at h; simp at h
      · simp only [if_neg h3, Except.ok.injEq] at h
        subst h
        refine ⟨_, rfl, ?_, ?_⟩
        · intro s
          by_cases hc : s.id = sid <;> simp [hc]
        · intro s hs
          by_cases hc : s.id = sid <;> simp [hc, hs]

/-- C6: GradeAnswer accepts marksObtained only inside [0, question.marks];
an out-of-range call fails with MarksOutOfRange and leaves the stored
answer and the submission aggregate untouched (the state is unchanged). -/
theorem spec_C6_grade_range (db : DB) (ansId : Nat) (m : Int)
    (ans : SubmissionAnswer) (q : Question) (sub : Submission) (a : Assessment)
    (hans : findAnswer db ansId = some ans)
    (hq : findQuestion db ans.questionId = some q)
    (hs : findSubmission db ans.submissionId = some sub)
    (ha : findAssessment db sub.assessmentId = some a)
    (hrange : m < 0 ∨ q.marks < m) :
    gradeAnswer db ansId m = .error .marksOutOfRange ∧
    applyOp db (.gradeOp ansId m) = db := by
  have herr : gradeAnswer db ansId m = .error .marksOutOfRange := by
    unfold gradeAnswer
    simp only [hans, hq, hs, ha, if_pos hrange]
  exact ⟨herr, by simp only [applyOp, herr]⟩

/-- C6 witness: grading the 5-mark free-text answer with 7 marks is
rejected and changes nothing. -/
theorem spec_C6_grade_range_witness :
    gradeAnswer dbCompleted 1 7 = .error .marksOutOfRange ∧
    applyOp dbCompleted (.gradeOp 1 7) = dbCompleted :=
  spec_C6_grade_range dbCompleted 1 7 exAnsFree exQ2 exSubCompleted exAssessment
    (by decide) (by decide) (by decide) (by decide) (Or.inr (by decide))

/-- C5: SaveAnswer grades choice questions by the looked-up selected
option (full marks iff its isCorrect flag is set, so the stored marks are
always 0 or question.marks, never partial) and stores free-text answers
with isCorrect false and zero marks. -/
theorem spec_C5_save_autograde (db : DB) (uid sid qid : Nat) (sel : Option Nat)
    (txt : Option String) (ts : Option Int) (sub : Submission) (q : Question)
    (hsub : findSaveSubmission db uid sid = some sub)
    (hq : findQuestion db qid = some q) :
    (q.questionType = QuestionType.MULTIPLE_CHOICE ∨
        q.questionType = QuestionType.TRUE_FALSE →
      ∃ db', saveAnswer db uid sid qid sel txt ts = .ok db' ∧
        ∃ ans, storedAnswer db' sid qid = some ans ∧
          (∀ opt, q.options.find? (fun o => decide (some o.id = sel)) = some opt →
            ans.isCorrect = opt.isCorrect ∧
            ans.marksObtained = (if opt.isCorrect = true then q.marks else 0)) ∧
          (q.options.find? (fun o => decide (some o.id = sel)) = none →
            ans.isCorrect = false ∧ ans.marksObtained = 0) ∧
          (ans.marksObtained = 0 ∨ ans.marksObtained = q.marks)) ∧
    (q.questionType = QuestionType.SHORT_ANSWER ∨
        q.questionType = QuestionType.LONG_ANSWER →
      ∃ db', saveAnswer db uid sid qid sel txt ts = .ok db' ∧
        ∃ ans, storedAnswer db' sid qid = some ans ∧
          ans.isCorrect = false ∧ ans.marksObtained = 0) := by
  obtain ⟨db', hok, ans, hstored, hsid, hqid, hic, hm⟩ :=
    saveAnswer_stores db uid sid qid sel txt ts sub q hsub hq
  constructor
  · intro hty
    refine ⟨db', hok, ans, hstored, ?_, ?_, ?_⟩
    · intro opt hfound
      rw [hic, hm, autoGrade_choice_found q sel opt hty hfound]
      exact ⟨rfl, rfl⟩
    · intro hnone
      rw [hic, hm, autoGrade_choice_none q sel hty hnone]
      exact ⟨rfl, rfl⟩
    · rw [hm]
      exact autoGrade_marks_split q sel
  · intro hty
    refine ⟨db', hok, ans, hstored, ?_, ?_⟩
    · rw [hic, autoGrade_free q sel hty]
    · rw [hm, autoGrade_free q sel hty]

/-- C5 witness: saving the correct option of the choice question and a
text for the long-answer question behave as stated on the fixture. -/
theorem spec_C5_save_autograde_witness :
    (∃ db', saveAnswer dbInProgress 10 1 1 (some 2) none none = .ok db' ∧
      ∃ ans, storedAnswer db' 1 1 = some ans ∧
        (∀ opt, exQ1.options.find? (fun o => decide (some o.id = some 2)) = some opt →
          ans.isCorrect = opt.isCorrect ∧
          ans.marksObtained = (if opt.isCorrect = true then exQ1.marks else 0)) ∧
        (exQ1.options.find? (fun o => decide (some o.id = some 2)) = none →
          ans.isCorrect = false ∧ ans.marksObtained = 0) ∧
        (ans.marksObtained = 0 ∨ ans.marksObtained = exQ1.marks)) ∧
    (∃ db', saveAnswer dbInProgress 10 1 2 none (some "essay") none = .ok db' ∧
      ∃ ans, storedAnswer db' 1 2 = some ans ∧
        ans.isCorrect = false ∧ ans.marksObtained = 0) :=
  ⟨(spec_C5_save_autograde dbInProgress 10 1 1 (some 2) none none exSub exQ1
      (by decide) (by decide)).1 (Or.inl rfl),
   (spec_C5_save_autograde dbInProgress 10 1 2 none (some "essay") none exSub exQ2
      (by decide) (by decide)).2 (Or.inr rfl)⟩

/-- C10: for a choice question, SaveAnswer never fails because of the
selected option: when selectedOptionId is absent or matches none of the
question's own options the call still succeeds and silently records
isCorrect false with zero marks. -/
theorem spec_C10_save_no_option_validation (db : DB) (uid sid qid : Nat)
    (sel : Option Nat) (txt : Option String) (ts : Option Int)
    (sub : Submission) (q : Question)
    (hsub : findSaveSubmission db uid sid = some sub)
    (hq : findQuestion db qid = some q)
    (hty : q.questionType = QuestionType.MULTIPLE_CHOICE ∨
           q.questionType = QuestionType.TRUE_FALSE)
    (hsel : ∀ opt ∈ q.options, ¬ some opt.id = sel) :
    ∃ db', saveAnswer db uid sid qid sel txt ts = .ok db' ∧
      ∃ ans, storedAnswer db' sid qid = some ans ∧
        ans.isCorrect = false ∧ ans.marksObtained = 0 := by
  have hnone : q.options.find? (fun o => decide (some o.id = sel)) = none := by
    rw [List.find?_eq_none]
    intro opt hmem
    simp only [decide_eq_true_eq]
    exact hsel opt hmem
  obtain ⟨db', hok, ans, hstored, hsid, hqid, hic, hm⟩ :=
    saveAnswer_stores db uid sid qid sel txt ts sub q hsub hq
  refine ⟨db', hok, ans, hstored, ?_, ?_⟩
  · rw [hic, autoGrade_choice_none q sel hty hnone]
  · rw [hm, autoGrade_choice_none q sel hty hnone]

/-- C10 witness: option id 77 belongs to no option of the question, yet
the save succeeds and stores a zero-mark incorrect answer; the same holds
with no selected option at all. -/
theorem spec_C10_save_no_option_validation_witness :
    (∃ db', saveAnswer dbInProgress 10 1 1 (some 77) none none = .ok db' ∧
      ∃ ans, storedAnswer db' 1 1 = some ans ∧
        ans.isCorrect = false ∧ ans.marksObtained = 0) ∧
    (∃ db', saveAnswer dbInProgress 10 1 1 none none none = .ok db' ∧
      ∃ ans, storedAnswer db' 1 1 = some ans ∧
        ans.isCorrect = false ∧ ans.marksObtained = 0) :=
  ⟨spec_C10_save_no_option_validation dbInProgress 10 1 1 (some 77) none none
      exSub exQ1 (by decide) (by decide) (Or.inl rfl) (by decide),
   spec_C10_save_no_option_validation dbInProgress 10 1 1 none none none
      exSub exQ1 (by decide) (by decide) (Or.inl rfl) (by decide)⟩

/-- Updating exactly the rows of one id and then looking that id up
returns the updated version of the row found before. -/
theorem find_submission_update (l : List Submission) (sid : Nat)
    (upd : Submission → Submission) (hid : ∀ s, (upd s).id = s.id)
    (sub : Submission)
    (hfs : l.find? (fun s => decide (s.id = sid)) = some sub) :
    (l.map (fun s => if s.id = sid then upd s else s)).find?
        (fun s => decide (s.id = sid)) =
      some (if sub.id = sid then upd sub else sub) := by
  rw [find_map_stable (fun s => if s.id = sid then upd s else s) _ ?stable l, hfs]
  case stable =>
    intro x
    by_cases hc : x.id = sid <;> simp [hc, hid x]
  rfl

/-- C4: Submit reads the parent assessment's current totalMarks (failing
with InvalidConfiguration when it is not positive), sums the saved
answers, rounds the percentage to two decimals, compares the sum against
passingMarks, and stores the aggregate on the now COMPLETED submission
with isCheckedByTeacher reset to false. -/
theorem spec_C4_submit (db : DB) (aid uid sid : Nat) (now : Int)
    (sub : Submission) (a : Assessment)
    (hnodup : (db.submissions.map (fun s => s.id)).Nodup)
    (hfind : findSubmitSubmission db uid sid aid = some sub)
    (ha : findAssessment db sub.assessmentId = some a) :
    (a.totalMarks ≤ 0 →
      submitAssessment db aid uid (some sid) now = .error .invalidConfiguration) ∧
    (0 < a.totalMarks →
      ∃ r db', submitAssessment db aid uid (some sid) now = .ok (r, db') ∧
        r.obtainedMarks = sumMarks db sid ∧
        r.totalMarks = a.totalMarks ∧
        r.percentage = round2 ((sumMarks db sid : Rat) / (a.totalMarks : Rat) * 100) ∧
        r.statusLabel = "PENDING_REVIEW" ∧
        findSubmission db' sid = some { sub with
          endTime := some now
          status := SubmissionStatus.COMPLETED
          obtainedMarks := sumMarks db sid
          percentage := round2 ((sumMarks db sid : Rat) / (a.totalMarks : Rat) * 100)
          isPassed := decide (a.passingMarks ≤ sumMarks db sid)
          timeSpent := some (Int.fdiv (now - sub.startTime) 1000)
          isCheckedByTeacher := false }) := by
  have hmem : sub ∈ db.submissions := List.mem_of_find?_eq_some hfind
  have hpred := List.find?_some hfind
  simp only [decide_eq_true_eq] at hpred
  constructor
  · intro hT
    unfold submitAssessment
    simp only [hfind, ha, if_pos hT]
  · intro hT
    have hnle : ¬ a.totalMarks ≤ 0 := not_le.mpr hT
    unfold submitAssessment
    simp only [hfind, ha, if_neg hnle]
    refine ⟨_, _, rfl, rfl, rfl, rfl, rfl, ?_⟩
    have hfs : findSubmission db sid = some sub :=
      findSubmission_of_mem db sid sub hnodup hmem hpred.1
    unfold findSubmission at hfs
    have hupd := find_submission_update db.submissions sid
      (fun s => { s with
        endTime := some now
        status := SubmissionStatus.COMPLETED
        obtainedMarks := sumMarks db sid
        percentage := round2 ((sumMarks db sid : Rat) / (a.totalMarks : Rat) * 100)
        isPassed := decide (a.passingMarks ≤ sumMarks db sid)
        timeSpent := some (Int.fdiv (now - sub.startTime) 1000)
        isCheckedByTeacher := false })
      (fun s => rfl) sub hfs
    rw [if_pos hpred.1] at hupd
    exact hupd

/-- C4 witness: submitting the fixture attempt (answers summing to 5,
assessment totalMarks 10 although the snapshot says 999) yields 50
percent, a failed-pass comparison turned true at the boundary, and a
COMPLETED unchecked submission. -/
theorem spec_C4_submit_witness :
    ∃ r db', submitAssessment dbAnswered 1 10 (some 1) 5000 = .ok (r, db') ∧
      r.obtainedMarks = sumMarks dbAnswered 1 ∧
      r.totalMarks = exAssessment.totalMarks ∧
      r.percentage = round2 ((sumMarks dbAnswered 1 : Rat) /
        (exAssessment.totalMarks : Rat) * 100) ∧
      r.statusLabel = "PENDING_REVIEW" ∧
      findSubmission db' 1 = some { exSub with
        endTime := some 5000
        status := SubmissionStatus.COMPLETED
        obtainedMarks := sumMarks dbAnswered 1
        percentage := round2 ((sumMarks dbAnswered 1 : Rat) /
          (exAssessment.totalMarks : Rat) * 100)
        isPassed := decide (exAssessment.passingMarks ≤ sumMarks dbAnswered 1)
        timeSpent := some (Int.fdiv (5000 - exSub.startTime) 1000)
        isCheckedByTeacher := false } :=
  (spec_C4_submit dbAnswered 1 10 1 5000 exSub exAssessment
    (by decide) (by decide) (by decide)).2 (by decide)

/-- C8: while a COMPLETED submission is unchecked, its results row shows
only PENDING_REVIEW with null score fields, that row does not depend on
the stored score fields at all, and the detailed review query refuses
access with the pending-review error. -/
theorem spec_C8_pending_withheld (db : DB) (uid sid : Nat) (sub : Submission)
    (hchk : sub.isCheckedByTeacher = false)
    (hst : sub.status = SubmissionStatus.COMPLETED) :
    (resultEntry db sub).status = "PENDING_REVIEW" ∧
    (resultEntry db sub).obtainedMarks = none ∧
    (resultEntry db sub).totalMarks = none ∧
    (resultEntry db sub).percentage = none ∧
    (resultEntry db sub).isPassed = none ∧
    (resultEntry db sub).canReview = false ∧
    (∀ (m : Int) (p : Rat) (ip : Bool),
      resultEntry db { sub with obtainedMarks := m, percentage := p, isPassed := ip } =
        resultEntry db sub) ∧
    (sub.userId = uid → sub ∈ db.submissions →
      resultEntry db sub ∈ myResults db uid) ∧
    (findReviewSubmission db uid sid = some sub →
      studentReview db uid sid = .error .pendingReview) := by
  refine ⟨?_, ?_, ?_, ?_, ?_, ?_, ?_, ?_, ?_⟩
  · simp [resultEntry, hchk]
  · simp [resultEntry, hchk]
  · simp [resultEntry, hchk]
  · simp [resultEntry, hchk]
  · simp [resultEntry, hchk]
  · simp [resultEntry, hchk]
  · intro m p ip
    simp [resultEntry, hchk]
  · intro huid hmem
    unfold myResults
    exact List.mem_map_of_mem _ (List.mem_filter.mpr ⟨hmem, by simp [huid, hst]⟩)
  · intro hrev
    unfold studentReview
    simp only [hrev, if_pos hchk]

/-- C8 witness: the unchecked completed fixture submission is reported
pending with null scores, ignores score-field changes, appears in the
listing, and its detailed review is refused. -/
theorem spec_C8_pending_withheld_witness :
    (resultEntry dbCompleted exSubCompleted).status = "PENDING_REVIEW" ∧
    (resultEntry dbCompleted exSubCompleted).obtainedMarks = none ∧
    (resultEntry dbCompleted exSubCompleted).percentage = none ∧
    (resultEntry dbCompleted exSubCompleted).isPassed = none ∧
    resultEntry dbCompleted
        { exSubCompleted with obtainedMarks := 9, percentage := 90, isPassed := false } =
      resultEntry dbCompleted exSubCompleted ∧
    resultEntry dbCompleted exSubCompleted ∈ myResults dbCompleted 10 ∧
    studentReview dbCompleted 10 1 = .error .pendingReview := by
  have h := spec_C8_pending_withheld dbCompleted 10 1 exSubCompleted rfl rfl
  exact ⟨h.1, h.2.1, h.2.2.2.1, h.2.2.2.2.1, h.2.2.2.2.2.2.1 9 90 false,
    h.2.2.2.2.2.2.2.1 rfl (by decide), h.2.2.2.2.2.2.2.2 (by decide)⟩

/-- C9: SaveAnswer looks the question up by id alone, with no check that
it belongs to the submission's assessment, so for any stored question the
save succeeds and its auto-graded marks enter the sum Submit later stores
as obtainedMarks. -/
theorem spec_C9_cross_assessment_save (db : DB) (uid sid qid : Nat)
    (sel : Option Nat) (txt : Option String) (ts : Option Int)
    (sub : Submission) (q : Question)
    (hsub : findSaveSubmission db uid sid = some sub)
    (hq : findQuestion db qid = some q)
    (hfresh : storedAnswer db sid qid = none) :
    ∃ db', saveAnswer db uid sid qid sel txt ts = .ok db' ∧
      (∃ ans, storedAnswer db' sid qid = some ans ∧
        ans.questionId = qid ∧ ans.marksObtained = (autoGrade q sel).2) ∧
      sumMarks db' sid = sumMarks db sid + (autoGrade q sel).2 ∧
      (∀ (aid : Nat) (a : Assessment) (now : Int),
        findSubmitSubmission db' uid sid aid = some sub →
        findAssessment db' sub.assessmentId = some a →
        0 < a.totalMarks →
        ∃ r db2, submitAssessment db' aid uid (some sid) now = .ok (r, db2) ∧
          r.obtainedMarks = sumMarks db sid + (autoGrade q sel).2) := by
  have hok := saveAnswer_create db uid sid qid sel txt ts sub q hsub hq hfresh
  refine ⟨_, hok, ?_, ?_, ?_⟩
  · refine ⟨newAnswer db sid qid sel txt ts (autoGrade q sel), ?_, rfl, rfl⟩
    unfold storedAnswer at hfresh ⊢
    simp only [List.find?_append, hfresh]
    simp [newAnswer]
  · exact sumMarks_append_match db _ sid rfl
  · intro aid a now hfind2 ha2 hT
    unfold submitAssessment
    simp only [hfind2, ha2, if_neg (not_le.mpr hT)]
    refine ⟨_, _, rfl, ?_⟩
    exact sumMarks_append_match db _ sid rfl

/-- C9 witness: question 3 belongs to assessment 2, the open submission
to assessment 1, yet the save succeeds and the submitted score becomes 7
out of assessment 1's marks. -/
theorem spec_C9_cross_assessment_save_witness :
    saveAnswer dbCross 10 1 3 (some 6) none none = .ok dbCrossSaved ∧
    sumMarks dbCrossSaved 1 = sumMarks dbCross 1 + (autoGrade exQ3 (some 6)).2 ∧
    ∃ r db2, submitAssessment dbCrossSaved 1 10 (some 1) 5000 = .ok (r, db2) ∧
      r.obtainedMarks = sumMarks dbCross 1 + (autoGrade exQ3 (some 6)).2 := by
  obtain ⟨db', hok, hans, hsum, hsubmit⟩ :=
    spec_C9_cross_assessment_save dbCross 10 1 3 (some 6) none none exSub exQ3
      (by decide) (by decide) (by decide)
  have hconc : saveAnswer dbCross 10 1 3 (some 6) none none = .ok dbCrossSaved := by
    rfl
  have hdb : db' = dbCrossSaved := by
    have := hok.symm.trans hconc
    exact Except.ok.inj this
  subst hdb
  exact ⟨hconc, hsum, hsubmit 1 exAssessment 5000 (by decide) (by decide) (by decide)⟩

/-- C3 counterexample: submission 1 is approved (isCheckedByTeacher true,
obtainedMarks 5, percentage 50), yet grading its free-text answer with 5
marks succeeds and rewrites the approved aggregate to 10 marks and 100
percent — GradeAnswer performs no approval check. -/
theorem spec_C3_counterexample :
    (findSubmission dbApproved 1).map
        (fun s => (s.isCheckedByTeacher, s.obtainedMarks, s.isPassed)) =
      some (true, 5, true) ∧
    (findSubmission (applyOp dbApproved (.gradeOp 1 5)) 1).map
        (fun s => (s.isCheckedByTeacher, s.obtainedMarks, s.isPassed)) =
      some (true, 10, true) := by
  exact ⟨by decide, by decide⟩

/-- C3 amended: approval is terminal for the flag but not for the
aggregate: on an approved (COMPLETED, isCheckedByTeacher) submission,
SaveAnswer and Submit are rejected and no grading call ever clears
isCheckedByTeacher — but GradeAnswer is not blocked, so the aggregate can
still change (as the counterexample shows). -/
theorem spec_C3_approval_not_grading_terminal (db : DB) (sid : Nat)
    (sub : Submission)
    (hnodup : (db.submissions.map (fun s => s.id)).Nodup)
    (hfind : findSubmission db sid = some sub)
    (hst : sub.status = SubmissionStatus.COMPLETED)
    (hchk : sub.isCheckedByTeacher = true) :
    (∀ (uid qid : Nat) (sel : Option Nat) (txt : Option String) (ts : Option Int),
      saveAnswer db uid sid qid sel txt ts = .error .invalidSubmission) ∧
    (∀ (aid uid : Nat) (now : Int),
      submitAssessment db aid uid (some sid) now = .error .submissionNotFound) ∧
    (∀ (ansId : Nat) (m : Int),
      (findSubmission (applyOp db (.gradeOp ansId m)) sid).map
        (fun s => s.isCheckedByTeacher) = some true) := by
  have hnip : sub.status ≠ SubmissionStatus.IN_PROGRESS := by simp [hst]
  refine ⟨?_, ?_, ?_⟩
  · intro uid qid sel txt ts
    unfold saveAnswer
    simp only [findSaveSubmission_none db sid uid sub hnodup hfind hnip]
  · intro aid uid now
    unfold submitAssessment
    simp only [findSubmitSubmission_none db sid uid aid sub hnodup hfind hnip]
  · intro ansId m
    unfold applyOp
    cases hg : gradeAnswer db ansId m with
    | error e =>
      simp only [hg]
      rw [hfind]
      simp [hchk]
    | ok rdb =>
      simp only [hg]
      obtain ⟨f, heq, hid, hchkf⟩ := gradeAnswer_ok_shape db ansId m rdb.1 rdb.2 hg
      rw [findSubmission_map_eq db rdb.2 f heq hid sid, hfind]
      simp [hchkf, hchk]

/-- C3 amended witness: on the approved fixture, a save and a resubmit
are rejected and a grading call leaves the approval flag set. -/
theorem spec_C3_approval_not_grading_terminal_witness :
    saveAnswer dbApproved 10 1 1 (some 2) none none = .error .invalidSubmission ∧
    submitAssessment dbApproved 1 10 (some 1) 9000 = .error .submissionNotFound ∧
    (findSubmission (applyOp dbApproved (.gradeOp 1 5)) 1).map
      (fun s => s.isCheckedByTeacher) = some true := by
  have h := spec_C3_approval_not_grading_terminal dbApproved 1
    { exSubCompleted with isCheckedByTeacher := true, checkedBy := some 99, checkedAt := some 5000 }
    (by decide) (by decide) (by decide) (by decide)
  exact ⟨h.1 10 1 (some 2) none none, h.2.1 1 10 9000, h.2.2 1 5⟩

/-- The primary-key lookup only reads the submissions table. -/
theorem findSubmission_ext (db1 db2 : DB) (sid : Nat)
    (h : db1.submissions = db2.submissions) :
    findSubmission db1 sid = findSubmission db2 sid := by
  unfold findSubmission
  rw [h]

/-- Appending a row (through a field equation) does not change a lookup
that already succeeds. -/
theorem findSubmission_append_eq (db db' : DB) (x : Submission) (sid : Nat)
    (sub : Submission) (heq : db'.submissions = db.submissions ++ [x])
    (h : findSubmission db sid = some sub) :
    findSubmission db' sid = some sub := by
  unfold findSubmission at h ⊢
  rw [heq, List.find?_append, h]
  rfl

/-- The approval gate counts an answer as ungraded exactly when its
question is free-text, its textAnswer is non-null and its marks are zero. -/
theorem isUngradedFreeText_iff (db : DB) (ans : SubmissionAnswer) :
    isUngradedFreeText db ans = true ↔
      (∃ q, findQuestion db ans.questionId = some q ∧
        (q.questionType = QuestionType.SHORT_ANSWER ∨
         q.questionType = QuestionType.LONG_ANSWER)) ∧
      ans.textAnswer ≠ none ∧ ans.marksObtained = 0 := by
  unfold isUngradedFreeText
  cases hq : findQuestion db ans.questionId with
  | none => simp [hq]
  | some q0 =>
    simp only [hq, Bool.and_eq_true, decide_eq_true_eq, Option.some.injEq]
    constructor
    · rintro ⟨⟨h1, h2⟩, h3⟩
      exact ⟨⟨q0, rfl, h1⟩, h2, h3⟩
    · rintro ⟨⟨q1, hq1, hty⟩, h2, h3⟩
      subst hq1
      exact ⟨⟨hty, h2⟩, h3⟩

/-- C7: on a COMPLETED submission, ApproveReview fails with
GradingIncomplete exactly when some free-text answer with a non-null
textAnswer still has zero marks; otherwise it succeeds, setting
isCheckedByTeacher, checkedBy and checkedAt; and once the flag is true no
core operation ever resets it. -/
theorem spec_C7_approve_gate (db : DB) (sid tid : Nat) (now : Int)
    (sub : Submission)
    (hnodup : (db.submissions.map (fun s => s.id)).Nodup)
    (hfind : findSubmission db sid = some sub)
    (hst : sub.status = SubmissionStatus.COMPLETED) :
    (approveReview db sid tid now = .error .gradingIncomplete ↔
      ∃ ans ∈ db.answers, ans.submissionId = sid ∧
        (∃ q, findQuestion db ans.questionId = some q ∧
          (q.questionType = QuestionType.SHORT_ANSWER ∨
           q.questionType = QuestionType.LONG_ANSWER)) ∧
        ans.textAnswer ≠ none ∧ ans.marksObtained = 0) ∧
    ((¬ ∃ ans ∈ db.answers, ans.submissionId = sid ∧
        (∃ q, findQuestion db ans.questionId = some q ∧
          (q.questionType = QuestionType.SHORT_ANSWER ∨
           q.questionType = QuestionType.LONG_ANSWER)) ∧
        ans.textAnswer ≠ none ∧ ans.marksObtained = 0) →
      ∃ db', approveReview db sid tid now = .ok db' ∧
        findSubmission db' sid = some { sub with
          isCheckedByTeacher := true
          checkedBy := some tid
          checkedAt := some now }) ∧
    (sub.isCheckedByTeacher = true →
      ∀ op : Op, (findSubmission (applyOp db op) sid).map
        (fun s => s.isCheckedByTeacher) = some true) := by
  have hnst : ¬ sub.status ≠ SubmissionStatus.COMPLETED := by simp [hst]
  have hiff : ((answersOf db sid).filter (isUngradedFreeText db)) ≠ [] ↔
      ∃ ans ∈ db.answers, ans.submissionId = sid ∧
        (∃ q, findQuestion db ans.questionId = some q ∧
          (q.questionType = QuestionType.SHORT_ANSWER ∨
           q.questionType = QuestionType.LONG_ANSWER)) ∧
        ans.textAnswer ≠ none ∧ ans.marksObtained = 0 := by
    constructor
    · intro hf
      obtain ⟨x, hxmem⟩ := List.exists_mem_of_ne_nil _ hf
      obtain ⟨hx1, hx2⟩ := List.mem_filter.mp hxmem
      obtain ⟨hx1a, hx1b⟩ := List.mem_filter.mp hx1
      refine ⟨x, hx1a, by simpa using hx1b, ?_⟩
      exact (isUngradedFreeText_iff db x).mp hx2
    · rintro ⟨ans, hmem, hsid, hrest⟩
      intro hnil
      have hin : ans ∈ (answersOf db sid).filter (isUngradedFreeText db) := by
        refine List.mem_filter.mpr ⟨?_, (isUngradedFreeText_iff db ans).mpr hrest⟩
        exact List.mem_filter.mpr ⟨hmem, by simp [hsid]⟩
      rw [hnil] at hin
      exact absurd hin (List.not_mem_nil ans)
  refine ⟨?_, ?_, ?_⟩
  · rw [← hiff]
    unfold approveReview
    simp only [hfind]
    rw [if_neg hnst]
    by_cases hf : ((answersOf db sid).filter (isUngradedFreeText db)) ≠ []
    · simp [hf]
    · simp [hf]
  · intro hno
    have hnil : ((answersOf db sid).filter (isUngradedFreeText db)) = [] := by
      by_contra hne
      exact hno (hiff.mp hne)
    unfold approveReview
    simp only [hfind]
    rw [if_neg hnst, if_neg (by simp [hnil])]
    refine ⟨_, rfl, ?_⟩
    have hfs := hfind
    unfold findSubmission at hfs
    have hupd := find_submission_update db.submissions sid
      (fun s => { s with
        isCheckedByTeacher := true
        checkedBy := some tid
        checkedAt := some now })
      (fun s => rfl) sub hfs
    rw [if_pos (findSubmission_id db sid sub hfind)] at hupd
    exact hupd
  · intro hchk op
    cases op with
    | startOp aid uid now2 shuffle =>
      unfold applyOp
      cases hr : startAttempt db aid uid now2 shuffle with
      | error e => simp only [hr]; rw [hfind]; simp [hchk]
      | ok rdb =>
        simp only [hr]
        rcases startAttempt_ok_shape db aid uid now2 shuffle rdb.1 rdb.2 hr with hsame | ⟨x, happ⟩
        · rw [hsame, hfind]; simp [hchk]
        · rw [findSubmission_append_eq db rdb.2 x sid sub happ hfind]
          simp [hchk]
    | saveOp uid sid2 qid sel txt ts =>
      unfold applyOp
      cases hr : saveAnswer db uid sid2 qid sel txt ts with
      | error e => simp only [hr]; rw [hfind]; simp [hchk]
      | ok db2 =>
        simp only [hr]
        rw [findSubmission_ext db2 db sid (saveAnswer_submissions db db2 uid sid2 qid sel txt ts hr), hfind]
        simp [hchk]
    | submitOp aid uid sid2 now2 =>
      unfold applyOp
      cases hr : submitAssessment db aid uid sid2 now2 with
      | error e => simp only [hr]; rw [hfind]; simp [hchk]
      | ok rdb =>
        simp only [hr]
        obtain ⟨sid3, sub3, hfind3, hip3, hmem3, hid3, f, heq, hidf, hout⟩ :=
          submitAssessment_ok_shape db aid uid sid2 now2 rdb.1 rdb.2 hr
        have hne : ¬ sub.id = sid3 := by
          intro hcon
          have : sub = sub3 := by
            apply submission_eq_of_id db hnodup sub sub3
              (findSubmission_mem db sid sub hfind) hmem3
            rw [hcon, hid3]
          rw [this] at hst
          rw [hst] at hip3
          exact SubmissionStatus.noConfusion hip3
        rw [findSubmission_map_eq db rdb.2 f heq hidf sid, hfind]
        simp [hout sub hne, hchk]
    | gradeOp ansId m =>
      unfold applyOp
      cases hr : gradeAnswer db ansId m with
      | error e => simp only [hr]; rw [hfind]; simp [hchk]
      | ok rdb =>
        simp only [hr]
        obtain ⟨f, heq, hid, hchkf⟩ := gradeAnswer_ok_shape db ansId m rdb.1 rdb.2 hr
        rw [findSubmission_map_eq db rdb.2 f heq hid sid, hfind]
        simp [hchkf, hchk]
    | approveOp sid2 tid2 now2 =>
      unfold applyOp
      cases hr : approveReview db sid2 tid2 now2 with
      | error e => simp only [hr]; rw [hfind]; simp [hchk]
      | ok db2 =>
        simp only [hr]
        obtain ⟨f, heq, hid, hkeep⟩ := approveReview_ok_shape db sid2 tid2 now2 db2 hr
        rw [findSubmission_map_eq db db2 f heq hid sid, hfind]
        simp [hkeep sub hchk]

/-- C7 witness: approval is refused while the essay answer is ungraded,
succeeds on the graded fixture setting the flag and audit fields, and a
later save attempt leaves the approved flag set. -/
theorem spec_C7_approve_gate_witness :
    approveReview dbCompleted 1 99 5000 = .error .gradingIncomplete ∧
    (∃ db', approveReview dbGraded 1 99 5000 = .ok db' ∧
      findSubmission db' 1 = some { exSubCompleted with
        isCheckedByTeacher := true
        checkedBy := some 99
        checkedAt := some 5000 }) ∧
    (findSubmission (applyOp dbApproved (.saveOp 10 1 1 (some 2) none none)) 1).map
      (fun s => s.isCheckedByTeacher) = some true := by
  refine ⟨?_, ?_, ?_⟩
  · exact (spec_C7_approve_gate dbCompleted 1 99 5000 exSubCompleted
      (by decide) (by decide) rfl).1.mpr
      ⟨exAnsFree, by decide, rfl, ⟨exQ2, by decide, Or.inr rfl⟩, by decide, rfl⟩
  · apply (spec_C7_approve_gate dbGraded 1 99 5000 exSubCompleted
      (by decide) (by decide) rfl).2.1
    rintro ⟨ans, hmem, hsid, ⟨q, hq, hty⟩, htxt, hm⟩
    have hmem2 : ans = { exAnsFree with marksObtained := 5, isCorrect := true } ∨
        ans = exAnsChoice := by
      have h := hmem
      rw [show dbGraded.answers =
        [{ exAnsFree with marksObtained := 5, isCorrect := true }, exAnsChoice]
        from rfl] at h
      simpa using h
    rcases hmem2 with h1 | h2
    · subst h1
      exact absurd hm (by decide)
    · subst h2
      exact htxt rfl
  · have h := spec_C7_approve_gate dbApproved 1 99 5000
      { exSubCompleted with
        isCheckedByTeacher := true
        checkedBy := some 99
        checkedAt := some 5000 }
      (by decide) (by decide) rfl
    exact h.2.2 rfl (.saveOp 10 1 1 (some 2) none none)

/-- C1 counterexample: with attempts=1 an IN_PROGRESS submission exists,
yet a second StartAttempt fails with AttemptsExceeded instead of
returning it (the attempts check runs before the resume check); and with
randomizeQuestions the first call returns the shuffled order [2, 1] while
the resumed call returns the canonical order [1, 2] — the shuffle is not
persisted, so the two calls disagree on the question order. -/
theorem spec_C1_counterexample :
    startAttempt dbOneAttempt 1 10 100 (fun l => l) = .error .attemptsExceeded ∧
    (startAttempt dbRand 1 10 100 List.reverse).toOption.map
      (fun r => r.1.questions.map (fun q => q.id)) = some [2, 1] ∧
    ((startAttempt dbRand 1 10 100 List.reverse).toOption.bind
      (fun r => (startAttempt r.2 1 10 200 List.reverse).toOption)).map
      (fun r => r.1.questions.map (fun q => q.id)) = some [1, 2] := by
  refine ⟨by rfl, by decide, by decide⟩

/-- C1 amended: while an IN_PROGRESS submission exists AND the pair's
submission count is still below assessment.attempts, StartAttempt resumes
idempotently: it returns the existing submission's id, creates nothing
(the state is returned unchanged), and applies no shuffle — the questions
come back in order-column order regardless of randomizeQuestions, which
need not match the first call's randomized order. -/
theorem spec_C1_resume_idempotent (db : DB) (aid uid : Nat) (now : Int)
    (shuffle : List Question → List Question) (a : Assessment) (sub : Submission)
    (hA : findActiveAssessment db aid = some a)
    (henr : enrolled db uid a.courseId = true)
    (hsd : a.startDate.any (fun sd => decide (now < sd)) = false)
    (hed : a.endDate.any (fun ed => decide (ed < now)) = false)
    (hcount : (pairCount db aid uid : Int) < a.attempts)
    (hip : findInProgress db aid uid = some sub) :
    startAttempt db aid uid now shuffle =
      .ok ({ submissionId := sub.id
             startTime := sub.startTime
             questions := (activeQuestions db aid).map formatQuestion }, db) := by
  unfold startAttempt
  simp only [hA]
  rw [if_neg (by simp [henr]), if_neg (by simp [hsd]), if_neg (by simp [hed]),
    if_neg (not_le.mpr hcount)]
  simp only [hip]

/-- C1 amended witness: resuming the open fixture attempt returns the
same submission, the unchanged state, and the unshuffled question list,
with a reversing shuffle supplied. -/
theorem spec_C1_resume_idempotent_witness :
    startAttempt dbInProgress 1 10 100 List.reverse =
      .ok ({ submissionId := exSub.id
             startTime := exSub.startTime
             questions := (activeQuestions dbInProgress 1).map formatQuestion },
           dbInProgress) :=
  spec_C1_resume_idempotent dbInProgress 1 10 100 List.reverse exAssessment exSub
    (by decide) (by decide) (by decide) (by decide) (by decide) (by decide)

/-- One start-then-finish round succeeds while the pair count is below
the attempt limit, and it raises the count by exactly one while leaving
the assessments and enrollments untouched and no attempt open. -/
theorem startCycle_step (db0 db : DB) (aid uid : Nat) (now : Int)
    (shuffle : List Question → List Question) (a : Assessment) (i : Nat)
    (hA0 : findActiveAssessment db0 aid = some a)
    (henr0 : enrolled db0 uid a.courseId = true)
    (hsd : a.startDate.any (fun sd => decide (now < sd)) = false)
    (hed : a.endDate.any (fun ed => decide (ed < now)) = false)
    (htm : 0 < a.totalMarks)
    (hass : db.assessments = db0.assessments)
    (henr : db.enrollments = db0.enrollments)
    (hcount : pairCount db aid uid = i)
    (hip : findInProgress db aid uid = none)
    (hlt : (i : Int) < a.attempts) :
    ∃ db', startCycle db aid uid now shuffle = .ok db' ∧
      db'.assessments = db0.assessments ∧
      db'.enrollments = db0.enrollments ∧
      pairCount db' aid uid = i + 1 ∧
      findInProgress db' aid uid = none := by
  have hA : findActiveAssessment db aid = some a := by
    rw [findActiveAssessment_ext db db0 aid hass, hA0]
  have henr2 : enrolled db uid a.courseId = true := by
    rw [enrolled_ext db db0 uid a.courseId henr, henr0]
  have hlt2 : ((pairCount db aid uid : Nat) : Int) < a.attempts := by
    rw [hcount]; exact hlt
  unfold startCycle startAttempt
  simp only [hA]
  rw [if_neg (by simp [henr2]), if_neg (by simp [hsd]), if_neg (by simp [hed]),
    if_neg (not_le.mpr hlt2)]
  simp only [hip]
  rw [if_neg (not_le.mpr htm)]
  refine ⟨_, rfl, hass, henr, ?_, ?_⟩
  · rw [pairCount_completePair, pairCount_append_match db _ aid uid ⟨rfl, rfl⟩, hcount]
  · exact findInProgress_completePair _ aid uid

/-- Iterating start-then-finish rounds keeps the invariant: after i
rounds the pair count is i, nothing is open, and the assessments and
enrollments tables are unchanged. -/
theorem iterCycles_inv (db0 : DB) (aid uid : Nat) (now : Int)
    (shuffle : List Question → List Question) (a : Assessment) (N : Nat)
    (hA0 : findActiveAssessment db0 aid = some a)
    (henr0 : enrolled db0 uid a.courseId = true)
    (hsd : a.startDate.any (fun sd => decide (now < sd)) = false)
    (hed : a.endDate.any (fun ed => decide (ed < now)) = false)
    (htm : 0 < a.totalMarks)
    (hatt : a.attempts = (N : Int))
    (hzero : pairCount db0 aid uid = 0)
    (hip0 : findInProgress db0 aid uid = none) :
    ∀ i, i ≤ N → ∃ dbi, iterCycles aid uid now shuffle i db0 = .ok dbi ∧
      dbi.assessments = db0.assessments ∧ dbi.enrollments = db0.enrollments ∧
      pairCount dbi aid uid = i ∧ findInProgress dbi aid uid = none := by
  intro i
  induction i with
  | zero => intro _; exact ⟨db0, rfl, rfl, rfl, hzero, hip0⟩
  | succ n ih =>
    intro hle
    obtain ⟨dbn, hok, h1, h2, h3, h4⟩ := ih (Nat.le_of_lt (Nat.lt_of_succ_le hle))
    obtain ⟨dbn1, hok1, g1, g2, g3, g4⟩ :=
      startCycle_step db0 dbn aid uid now shuffle a n hA0 henr0 hsd hed htm
        h1 h2 h3 h4 (by rw [hatt]; exact_mod_cast Nat.lt_of_succ_le hle)
    refine ⟨dbn1, ?_, g1, g2, g3, g4⟩
    unfold iterCycles
    simp only [hok]
    exact hok1

/-- C2: with attempts = N and a fresh pair, N start-then-finish rounds
all succeed, the (N+1)th start fails with AttemptsExceeded, and in
general one start fails with AttemptsExceeded exactly by the check that
counts all prior submissions of the pair against assessment.attempts. -/
theorem spec_C2_attempt_limit (db0 : DB) (aid uid : Nat) (now : Int)
    (shuffle : List Question → List Question) (a : Assessment) (N : Nat)
    (hA0 : findActiveAssessment db0 aid = some a)
    (henr0 : enrolled db0 uid a.courseId = true)
    (hsd : a.startDate.any (fun sd => decide (now < sd)) = false)
    (hed : a.endDate.any (fun ed => decide (ed < now)) = false)
    (htm : 0 < a.totalMarks)
    (hatt : a.attempts = (N : Int))
    (hzero : pairCount db0 aid uid = 0)
    (hip0 : findInProgress db0 aid uid = none) :
    (∀ i, i ≤ N → ∃ dbi, iterCycles aid uid now shuffle i db0 = .ok dbi) ∧
    (∀ dbN, iterCycles aid uid now shuffle N db0 = .ok dbN →
      startAttempt dbN aid uid now shuffle = .error .attemptsExceeded) ∧
    (∀ (db : DB) (a2 : Assessment), findActiveAssessment db aid = some a2 →
      enrolled db uid a2.courseId = true →
      a2.startDate.any (fun sd => decide (now < sd)) = false →
      a2.endDate.any (fun ed => decide (ed < now)) = false →
      a2.attempts ≤ (pairCount db aid uid : Int) →
      startAttempt db aid uid now shuffle = .error .attemptsExceeded) := by
  have hmech : ∀ (db : DB) (a2 : Assessment), findActiveAssessment db aid = some a2 →
      enrolled db uid a2.courseId = true →
      a2.startDate.any (fun sd => decide (now < sd)) = false →
      a2.endDate.any (fun ed => decide (ed < now)) = false →
      a2.attempts ≤ (pairCount db aid uid : Int) →
      startAttempt db aid uid now shuffle = .error .attemptsExceeded := by
    intro db a2 hA2 henr2 hsd2 hed2 hge
    unfold startAttempt
    simp only [hA2]
    rw [if_neg (by simp [henr2]), if_neg (by simp [hsd2]), if_neg (by simp [hed2]),
      if_pos hge]
  refine ⟨?_, ?_, hmech⟩
  · intro i hle
    obtain ⟨dbi, hok, _⟩ :=
      iterCycles_inv db0 aid uid now shuffle a N hA0 henr0 hsd hed htm hatt
        hzero hip0 i hle
    exact ⟨dbi, hok⟩
  · intro dbN hok
    obtain ⟨dbN2, hok2, h1, h2, h3, _⟩ :=
      iterCycles_inv db0 aid uid now shuffle a N hA0 henr0 hsd hed htm hatt
        hzero hip0 N (le_refl N)
    have heq : dbN = dbN2 := Except.ok.inj (hok.symm.trans hok2)
    subst heq
    apply hmech dbN a
    · rw [findActiveAssessment_ext dbN db0 aid h1, hA0]
    · rw [enrolled_ext dbN db0 uid a.courseId h2, henr0]
    · exact hsd
    · exact hed
    · rw [h3, hatt]

/-- C2 witness: on the fresh fixture with attempts 2, two rounds succeed,
the third start is rejected, and the generic count check also rejects the
single-attempt fixture that already has one submission. -/
theorem spec_C2_attempt_limit_witness :
    (∃ db2, iterCycles 1 10 0 (fun l => l) 2 dbFresh = .ok db2 ∧
      startAttempt db2 1 10 0 (fun l => l) = .error .attemptsExceeded) ∧
    startAttempt dbOneAttempt 1 10 0 (fun l => l) = .error .attemptsExceeded := by
  have h := spec_C2_attempt_limit dbFresh 1 10 0 (fun l => l) exAssessment 2
    (by decide) (by decide) (by decide) (by decide) (by decide) (by decide)
    (by decide) (by decide)
  obtain ⟨db2, hok⟩ := h.1 2 (le_refl 2)
  exact ⟨⟨db2, hok, h.2.1 db2 hok⟩,
    h.2.2 dbOneAttempt { exAssessment with attempts := 1 }
      (by decide) (by decide) (by decide) (by decide) (by decide)⟩
